import Mathlib

/-
Verification of the asynchronous webhook dispatch and conversation-state
polling protocol of the surikado chat assistant.

The definitions below are a shallow embedding of the TypeScript route
handler in src/app/api/send-message/route.ts (the current variant) and,
for the retrying endpoint client, of the sendToWebhook function in
src/unnamed/part_003.  Timestamps are modelled as natural numbers of
milliseconds; the in-memory Maps of the ConversationStore are modelled
as functions from keys to Option values (activeRequests as a function to
Bool, since a missing entry reads back as false via the get-or-false
idiom in the source).  JavaScript code that fires a background task
without awaiting it is modelled by returning a Bool flag recording that
the task was launched.  Decorative emoji prefixes of user-facing filler
strings are omitted; every message whose content a claim depends on is
embedded verbatim.
-/

-- ============================================
-- Timing configuration (route.ts, TIMING object)
-- ============================================

namespace TIMING

def EMPTY_MESSAGE_INTERVAL : Nat := 8000

def MAX_TOTAL_TIME : Nat := 300000

def WEBHOOK_TIMEOUT : Nat := 90000

def NORMAL_MESSAGE_TIMEOUT : Nat := 25000

def CLEANUP_INTERVAL : Nat := 60000

def MAX_CONVERSATION_AGE : Nat := 900000

def POLLING_WAIT_TIME : Nat := 10000

end TIMING

-- ============================================
-- Data model (route.ts interfaces)
-- ============================================

structure ConversationState where
  startTime : Nat
  lastEmptyMessageTime : Nat
  completed : Bool
  userMessage : String
  webhookCalled : Bool
  emptyMessageCount : Nat
  webhookStartTime : Option Nat
  processingStarted : Bool
  isSoftSkillsFollowUp : Bool
  requestId : String
deriving DecidableEq

structure FinalResponse where
  message : String
  timestamp : Nat
  success : Bool
deriving DecidableEq

structure WebhookResult where
  ok : Bool
  message : String
  error : Option String := none
deriving DecidableEq

-- ============================================
-- Conversation store (route.ts, class ConversationStore)
-- ============================================

structure Store where
  conversations : String → Option ConversationState
  responses : String → Option FinalResponse
  activeRequests : String → Bool

def Store.empty : Store :=
  { conversations := fun _ => none
    responses := fun _ => none
    activeRequests := fun _ => false }

def Store.hasActiveRequest (s : Store) (phone : String) : Bool :=
  s.activeRequests phone

def Store.setActiveRequest (s : Store) (phone : String) (active : Bool) : Store :=
  { s with activeRequests := fun k => if k = phone then active else s.activeRequests k }

def Store.setConversation (s : Store) (phone : String) (state : ConversationState) : Store :=
  { s with conversations := fun k => if k = phone then some state else s.conversations k }

def Store.getConversation (s : Store) (phone : String) : Option ConversationState :=
  s.conversations phone

-- deleteConversation also removes the activeRequests entry (a deleted
-- entry reads back as false), mirroring route.ts lines 68-71.
def Store.deleteConversation (s : Store) (phone : String) : Store :=
  { s with
    conversations := fun k => if k = phone then none else s.conversations k
    activeRequests := fun k => if k = phone then false else s.activeRequests k }

def Store.setResponse (s : Store) (phone : String) (response : FinalResponse) : Store :=
  { s with responses := fun k => if k = phone then some response else s.responses k }

def Store.getResponse (s : Store) (phone : String) : Option FinalResponse :=
  s.responses phone

def Store.deleteResponse (s : Store) (phone : String) : Store :=
  { s with responses := fun k => if k = phone then none else s.responses k }

-- ============================================
-- String helpers for the embedding
-- ============================================

/-- Checks that the second list starts with the first list,
modelling the JavaScript String.startsWith on character lists. -/
def beginsWith : List Char → List Char → Bool
  | [], _ => true
  | _ :: _, [] => false
  | p :: ps, c :: cs => (p == c) && beginsWith ps cs

/-- Substring occurrence test, modelling the JavaScript String.includes. -/
def containsSeq (pat : List Char) : List Char → Bool
  | [] => beginsWith pat []
  | c :: t => beginsWith pat (c :: t) || containsSeq pat t

def strIncludes (s sub : String) : Bool :=
  containsSeq sub.data s.data

/-- Whitespace characters removed by the JavaScript String.trim
(restricted to the ASCII whitespace actually relevant here). -/
def isJsSpace (c : Char) : Bool :=
  c == ' ' || c == '\t' || c == '\n' || c == '\r'

/-- Model of the JavaScript String.trim on character lists. -/
def trimChars (l : List Char) : List Char :=
  ((l.dropWhile isJsSpace).reverse.dropWhile isJsSpace).reverse

def trimString (s : String) : String :=
  String.mk (trimChars s.data)

-- ============================================
-- normalizeWhatsApp (route.ts lines 143-150)
-- ============================================

/-- Characters kept by the replace of every character that is not
a plus sign or a digit. -/
def keepChar (c : Char) : Bool :=
  c == '+' || c.isDigit

/-- The fixed transport marker string as a character list. -/
def waHeader : List Char := "whatsapp:".data

/-- Character-list core of normalizeWhatsApp.  An empty input is falsy in
JavaScript and returns the empty string; otherwise: trim, strip a
case-insensitive transport marker, drop every character that is not a plus
or a digit, ensure a leading plus, and re-prepend the transport marker. -/
def normalizeWhatsAppChars (raw : List Char) : List Char :=
  if raw = [] then []
  else
    let t := trimChars raw
    let t := if beginsWith waHeader (t.map Char.toLower) then t.drop 9 else t
    let n := t.filter keepChar
    let n := if beginsWith ['+'] n then n else '+' :: n
    waHeader ++ n

def normalizeWhatsApp (raw : String) : String :=
  String.mk (normalizeWhatsAppChars raw.data)

-- ============================================
-- getEmptyMessage (route.ts lines 152-166)
-- ============================================

def emptyMessages : List String :=
  [ "Analyzing your soft skills...",
    "Understanding your strengths...",
    "Processing your profile...",
    "Matching with opportunities...",
    "Almost ready...",
    "Preparing your response...",
    "Finalizing details...",
    "Just a moment more...",
    "Compiling information...",
    "Getting everything ready..." ]

def getEmptyMessage (count : Nat) : String :=
  emptyMessages.getD (count % emptyMessages.length) ""

-- ============================================
-- detectMessageType (route.ts lines 544-575)
-- ============================================

structure DetectionResult where
  isSoftSkillsQuestion : Bool
  isTechnicalSkills : Bool
deriving DecidableEq

def softSkillsQuestions : List String :=
  [ "soft skills", "primary skills", "what soft skills",
    "teamwork", "problem-solving", "communication",
    "adaptability", "technical leadership", "what are your soft skills",
    "tell me about your skills", "what skills do you have",
    "what are your primary skills", "describe your skills" ]

def technicalSkills : List String :=
  [ "java", "spring", "framework", "sql", "spring boot", "rest api",
    "git", "docker", "postgresql", "maven", "oracle", "kubernetes",
    "java ee", "python", "javascript", "react", "node", "aws",
    "azure", "cloud", "database", "api", "microservices", "devops",
    "html", "css", "typescript", "angular", "vue", "mongodb",
    "mysql", "redis", "kafka", "jenkins", "ansible", "terraform" ]

def detectMessageType (userMessage : String) : DetectionResult :=
  let text := userMessage.data.map Char.toLower
  let isQuestion := softSkillsQuestions.any (fun keyword => containsSeq keyword.data text)
  let isTechnical := technicalSkills.any (fun skill => containsSeq skill.data text)
  { isSoftSkillsQuestion := isQuestion
    isTechnicalSkills := isTechnical && !isQuestion }

-- ============================================
-- Poll state machine (route.ts, handlePollRequest, lines 389-541)
-- ============================================

/-- The JSON body produced by a poll call.  Fields that a given branch of
the source does not emit are modelled as none. -/
structure PollResponse where
  status : String
  message : String
  timestamp : Option Nat := none
  success : Option Bool := none
  elapsedSeconds : Option Nat := none
  completed : Option Bool := none
  webhookElapsed : Option Nat := none
deriving DecidableEq

def hardTimeoutMessage : String :=
  "Thank you for your patience! We\x27ve processed your information and will continue our conversation shortly."

def noConversationMessage : String :=
  "No active conversation found"

def pollProcessingTriggerMessage : String :=
  "Processing your soft skills information and finding matching opportunities..."

def pollWaitingForTriggerMessage : String :=
  "Preparing to process your information..."

def pollStillProcessingMessage : String :=
  "Processing your information..."

/-- Continuation of handlePollRequest after the hard-timeout and
completed-with-response checks have both declined (route.ts lines
451-540).  The returned Bool records that processWebhookInBackground was
launched without being awaited. -/
def pollProgress (s : Store) (now : Nat) (userPhone : String)
    (conversation : ConversationState) : Store × PollResponse × Bool :=
  let elapsedSeconds := (now - conversation.startTime) / 1000
  if !conversation.webhookCalled && conversation.isSoftSkillsFollowUp then
    let timeSinceStart := now - conversation.startTime
    if timeSinceStart ≥ TIMING.POLLING_WAIT_TIME then
      let conversation' := { conversation with
        webhookCalled := true
        webhookStartTime := some now
        processingStarted := true }
      (s.setConversation userPhone conversation',
       { status := "processing", message := pollProcessingTriggerMessage,
         elapsedSeconds := some elapsedSeconds, completed := some false },
       true)
    else
      (s,
       { status := "waiting", message := pollWaitingForTriggerMessage,
         elapsedSeconds := some elapsedSeconds, completed := some false },
       false)
  else if conversation.webhookCalled && !conversation.completed then
    let webhookElapsed := match conversation.webhookStartTime with
      | some t => (now - t) / 1000
      | none => 0
    let timeSinceLastEmpty := now - conversation.lastEmptyMessageTime
    if timeSinceLastEmpty ≥ TIMING.EMPTY_MESSAGE_INTERVAL then
      let conversation' := { conversation with
        lastEmptyMessageTime := now
        emptyMessageCount := conversation.emptyMessageCount + 1 }
      (s.setConversation userPhone conversation',
       { status := "empty", message := getEmptyMessage conversation'.emptyMessageCount,
         elapsedSeconds := some elapsedSeconds, completed := some false },
       false)
    else
      (s,
       { status := "processing", message := pollStillProcessingMessage,
         elapsedSeconds := some elapsedSeconds, webhookElapsed := some webhookElapsed,
         completed := some false },
       false)
  else
    let timeSinceLastEmpty := now - conversation.lastEmptyMessageTime
    if timeSinceLastEmpty ≥ TIMING.EMPTY_MESSAGE_INTERVAL then
      let conversation' := { conversation with
        lastEmptyMessageTime := now
        emptyMessageCount := conversation.emptyMessageCount + 1 }
      (s.setConversation userPhone conversation',
       { status := "empty", message := getEmptyMessage conversation'.emptyMessageCount,
         elapsedSeconds := some elapsedSeconds, completed := some false },
       false)
    else
      (s,
       { status := "waiting", message := getEmptyMessage conversation.emptyMessageCount,
         elapsedSeconds := some elapsedSeconds, completed := some false },
       false)

/-- Poll handler (route.ts lines 389-541).  Takes the store and the
current wall-clock time in milliseconds; returns the updated store, the
JSON response, and whether the deferred background call was launched. -/
def handlePollRequest (s : Store) (now : Nat) (userPhone : String) :
    Store × PollResponse × Bool :=
  match s.conversations userPhone with
  | none =>
    match s.responses userPhone with
    | some finalResponse =>
      ((s.deleteResponse userPhone).setActiveRequest userPhone false,
       { status := "completed", message := finalResponse.message,
         timestamp := some finalResponse.timestamp,
         success := some finalResponse.success },
       false)
    | none =>
      (s.setActiveRequest userPhone false,
       { status := "none", message := noConversationMessage },
       false)
  | some conversation =>
    let elapsedSeconds := (now - conversation.startTime) / 1000
    if elapsedSeconds ≥ TIMING.MAX_TOTAL_TIME / 1000 then
      (((s.deleteConversation userPhone).deleteResponse userPhone).setActiveRequest
          userPhone false,
       { status := "completed", message := hardTimeoutMessage,
         elapsedSeconds := some elapsedSeconds, completed := some true,
         success := some true },
       false)
    else
      -- completed-with-response returns here; a completed record with no
      -- stored response falls through to pollProgress.
      match (if conversation.completed then s.responses userPhone else none) with
      | some finalResponse =>
        (((s.deleteConversation userPhone).deleteResponse userPhone).setActiveRequest
            userPhone false,
         { status := "completed", message := finalResponse.message,
           elapsedSeconds := some elapsedSeconds, completed := some true,
           success := some finalResponse.success },
         false)
      | none => pollProgress s now userPhone conversation

-- ============================================
-- Background completion handler
-- (route.ts, processWebhookInBackground, lines 326-383)
-- ============================================

/-- Outcome of the awaited webhook call inside the background handler:
either sendToWebhook returned a result, or the await threw. -/
inductive BackgroundOutcome where
  | result (r : WebhookResult)
  | exn
deriving DecidableEq

def webhookFailFallback : String :=
  "Thank you for your response! Our system is processing your information and will get back to you shortly."

def webhookExnFallback : String :=
  "Thank you for sharing your information! We\x27re processing your response and will have personalized job recommendations for you shortly."

/-- The finally block of processWebhookInBackground: mark the record
completed when it still exists and release the active-request lock. -/
def processWebhookFinally (s : Store) (userPhone : String) : Store :=
  let s := match s.conversations userPhone with
    | some conversation =>
      s.setConversation userPhone { conversation with completed := true }
    | none => s
  s.setActiveRequest userPhone false

/-- Background completion handler, as a function of the outcome of the
awaited sendToWebhook call.  Every branch of the source stores its
FinalResponse with success set to true. -/
def processWebhookInBackground (s : Store) (now : Nat) (userPhone : String)
    (outcome : BackgroundOutcome) : Store :=
  match outcome with
  | .result r =>
    if r.ok then
      processWebhookFinally
        (s.setResponse userPhone
          { message := r.message, timestamp := now, success := true }) userPhone
    else
      processWebhookFinally
        (s.setResponse userPhone
          { message := webhookFailFallback, timestamp := now, success := true }) userPhone
  | .exn =>
    processWebhookFinally
      (s.setResponse userPhone
        { message := webhookExnFallback, timestamp := now, success := true }) userPhone

-- ============================================
-- Dispatch policy (route.ts, handleSendRequest, lines 578-676)
-- ============================================

structure SendResponse where
  ok : Bool
  status : Option String := none
  message : Option String := none
  error : Option String := none
  requestId : Option String := none
  pending : Option Bool := none
  isSoftSkillsResponse : Option Bool := none
  requiresPolling : Option Bool := none
deriving DecidableEq

/-- Result of handleSendRequest up to its first suspension point: either
the duplicate-request rejection, the pending acknowledgment of the
deferred path, or the decision to call the webhook inline (the immediate
path awaits the endpoint client at this point). -/
inductive SendOutcome where
  | rejected (resp : SendResponse)
  | pendingAck (resp : SendResponse)
  | immediateCall (message : String) (timeoutMs : Nat)
deriving DecidableEq

def sendRejectedResponse : SendResponse :=
  { ok := false
    error := some "Please wait for the current request to complete before sending another message."
    status := some "processing" }

def sendPendingResponse (requestId : String) : SendResponse :=
  { ok := true
    status := some "pending"
    message := some "Processing your skills information..."
    requestId := some requestId
    pending := some true
    isSoftSkillsResponse := some true
    requiresPolling := some true }

def handleSendRequest (s : Store) (now : Nat) (userPhone userMessage : String)
    (isSoftSkillsQuestion : Bool) (requestId : String) : Store × SendOutcome :=
  let serverDetection := detectMessageType userMessage
  let shouldUsePolling := isSoftSkillsQuestion && serverDetection.isSoftSkillsQuestion
  if s.hasActiveRequest userPhone then
    (s, .rejected sendRejectedResponse)
  else
    let s := s.setActiveRequest userPhone true
    if shouldUsePolling then
      let s := match s.conversations userPhone with
        | some existingConversation =>
          if existingConversation.completed then
            (s.deleteConversation userPhone).deleteResponse userPhone
          else s
        | none => s
      let s := s.setConversation userPhone
        { startTime := now
          lastEmptyMessageTime := now
          completed := false
          userMessage := userMessage
          webhookCalled := false
          emptyMessageCount := 0
          webhookStartTime := none
          processingStarted := false
          isSoftSkillsFollowUp := true
          requestId := requestId }
      (s, .pendingAck (sendPendingResponse requestId))
    else
      (s, .immediateCall userMessage TIMING.NORMAL_MESSAGE_TIMEOUT)

-- ============================================
-- Message extraction on a 2xx response
-- (route.ts, WebhookClient.attemptWebhookCall, lines 239-261)
-- ============================================

def webhookDefaultThanks : String :=
  "Thank you for your message! I\x27ve received your information and will help you find the best opportunities."

/-- Field lookup in a parsed JSON object.  The bodies exercised by this
route are JSON objects whose relevant fields are strings, so an object is
modelled as an association list from field names to string values; a
missing field reads back as none (undefined). -/
def lookupField : List (String × String) → String → Option String
  | [], _ => none
  | (k, v) :: rest, name => if k = name then some v else lookupField rest name

/-- Left-to-right JavaScript or-chain over candidate fields: a missing
field (none) and an empty string are both falsy and fall through to the
next candidate; the raw response text is the final fallback. -/
def firstTruthyStr : List (Option String) → String → String
  | [], fallback => fallback
  | v :: rest, fallback =>
    match v with
    | some s => if s = "" then firstTruthyStr rest fallback else s
    | none => firstTruthyStr rest fallback

/-- Display-message extraction of route.ts lines 244-259: on a parsed
JSON body take the first truthy field among output, message, response,
body, else the raw text; a body that does not parse as JSON uses the raw
text; finally, a blank or generic success message is replaced by a fixed
thank-you message. -/
def extractWebhookMessage (responseText : String)
    (parsed : Option (List (String × String))) : String :=
  let message :=
    match parsed with
    | some jsonResponse =>
      firstTruthyStr
        [ lookupField jsonResponse "output",
          lookupField jsonResponse "message",
          lookupField jsonResponse "response",
          lookupField jsonResponse "body" ]
        responseText
    | none => responseText
  if message = "" || trimString message = "" || message = "success" || message = "Success" then
    webhookDefaultThanks
  else
    message

-- ============================================
-- Retrying endpoint client
-- (src/unnamed/part_003, sendToWebhook, lines 457-539)
-- ============================================

/-- Outcome of one HTTP attempt against one endpoint, as distinguished by
the source: a 2xx response with an extracted message, a non-2xx status,
an abort of the attempt by its timeout, or another transport error. -/
inductive AttemptOutcome where
  | success (message : String)
  | httpError (status : Nat)
  | timeoutErr
  | otherErr (detail : String)
deriving DecidableEq

/-- Observable events of one sendToWebhook run: an HTTP attempt
(endpoint index, attempt number) or a fixed backoff delay. -/
inductive CallEvent where
  | attempt (endpointIdx attemptNo : Nat)
  | backoff (ms : Nat)
deriving DecidableEq

def maxAttemptsPerEndpoint : Nat := 2

def p3FailMessage : String :=
  "I\x27m having trouble processing your request right now. Please try again in a moment."

structure P3Result where
  ok : Bool
  message : String
deriving DecidableEq

/-- Inner attempt loop of part_003 sendToWebhook for one endpoint.  The
network is an oracle from attempt number to outcome.  A success returns
immediately; a timeout breaks out of the loop for this endpoint; any
other failure waits a fixed 2000 ms backoff when an attempt remains and
retries. -/
def tryAttempts (net : Nat → AttemptOutcome) (e attemptNo remaining : Nat) :
    Option String × List CallEvent :=
  match remaining with
  | 0 => (none, [])
  | r + 1 =>
    match net attemptNo with
    | .success m => (some m, [.attempt e attemptNo])
    | .timeoutErr => (none, [.attempt e attemptNo])
    | _ =>
      match r with
      | 0 => (none, [.attempt e attemptNo])
      | _ + 1 =>
        let rest := tryAttempts net e (attemptNo + 1) r
        (rest.1, .attempt e attemptNo :: .backoff 2000 :: rest.2)

/-- Outer endpoint loop of part_003 sendToWebhook: endpoints are tried in
order, each with up to maxAttemptsPerEndpoint attempts; the generic
failure result is produced only when every endpoint has been exhausted. -/
def goEndpoints (net : Nat → Nat → AttemptOutcome) :
    List Nat → P3Result × List CallEvent
  | [] => ({ ok := false, message := p3FailMessage }, [])
  | e :: rest =>
    let tried := tryAttempts (net e) e 1 maxAttemptsPerEndpoint
    match tried.1 with
    | some m => ({ ok := true, message := m }, tried.2)
    | none =>
      let next := goEndpoints net rest
      (next.1, tried.2 ++ next.2)

/-- The endpoint list of part_003 has exactly two entries, modelled by
their indices. -/
def p3Endpoints : List Nat := [0, 1]

def sendToWebhookP3 (net : Nat → Nat → AttemptOutcome) :
    P3Result × List CallEvent :=
  goEndpoints net p3Endpoints

-- ============================================
-- Concrete states used by witnesses and counterexamples
-- ============================================

def key0 : String := "whatsapp:+1555"

/-- A record whose deferred webhook call has already been triggered. -/
def convTriggered : ConversationState :=
  { startTime := 0, lastEmptyMessageTime := 0, completed := false,
    userMessage := "soft skills", webhookCalled := true, emptyMessageCount := 0,
    webhookStartTime := some 10000, processingStarted := true,
    isSoftSkillsFollowUp := true, requestId := "r1" }

def storeTriggered : Store := Store.empty.setConversation key0 convTriggered

/-- A fresh deferred record whose webhook call has not yet been triggered. -/
def convStale : ConversationState :=
  { startTime := 0, lastEmptyMessageTime := 0, completed := false,
    userMessage := "soft skills", webhookCalled := false, emptyMessageCount := 0,
    webhookStartTime := none, processingStarted := false,
    isSoftSkillsFollowUp := true, requestId := "r1" }

def storeStale : Store := Store.empty.setConversation key0 convStale

/-- A record marked completed by the background handler. -/
def convCompleted : ConversationState :=
  { startTime := 0, lastEmptyMessageTime := 0, completed := true,
    userMessage := "soft skills", webhookCalled := true, emptyMessageCount := 0,
    webhookStartTime := some 0, processingStarted := true,
    isSoftSkillsFollowUp := true, requestId := "r1" }

/-- A completed record with no stored FinalResponse (the defensive case
of the spec). -/
def storeCompletedNoResponse : Store := Store.empty.setConversation key0 convCompleted

def finalResponseSample : FinalResponse :=
  { message := "done", timestamp := 15000, success := true }

def storeCompletedWithResponse : Store :=
  (Store.empty.setConversation key0 convCompleted).setResponse key0 finalResponseSample

/-- State reached after a first deferred send at time 0. -/
def c5Store1 : Store :=
  (handleSendRequest Store.empty 0 key0 "soft skills" true "r1").1

/-- State after the poll at 10 s that triggers the background call. -/
def c5Store2 : Store := (handlePollRequest c5Store1 10000 key0).1

/-- State after the background handler completes successfully. -/
def c5Store3 : Store :=
  processWebhookInBackground c5Store2 20000 key0
    (.result { ok := true, message := "done" })

/-- State after a second deferred send at 30 s: the completed record is
purged (which also clears the active-request flag) and a fresh
non-completed record is created. -/
def c5Store4 : Store :=
  (handleSendRequest c5Store3 30000 key0 "soft skills" true "r2").1

/-- An extracted message longer than the display limit claimed by the
spec (2000 characters plus an ellipsis marker). -/
def c6LongText : String := String.mk (List.replicate 2004 'a')

def webhookFailedResult : WebhookResult :=
  { ok := false, message := "boom", error := some "HTTP 500" }

-- ============================================
-- Store access lemmas
-- ============================================

@[simp] theorem Store.setConversation_conv (s : Store) (k : String) (c : ConversationState) (kk : String) :
    (s.setConversation k c).conversations kk = if kk = k then some c else s.conversations kk := rfl

@[simp] theorem Store.setConversation_resp (s : Store) (k : String) (c : ConversationState) :
    (s.setConversation k c).responses = s.responses := rfl

@[simp] theorem Store.setConversation_active (s : Store) (k : String) (c : ConversationState) :
    (s.setConversation k c).activeRequests = s.activeRequests := rfl

@[simp] theorem Store.setActiveRequest_active (s : Store) (k : String) (b : Bool) (kk : String) :
    (s.setActiveRequest k b).activeRequests kk = if kk = k then b else s.activeRequests kk := rfl

@[simp] theorem Store.setActiveRequest_conv (s : Store) (k : String) (b : Bool) :
    (s.setActiveRequest k b).conversations = s.conversations := rfl

@[simp] theorem Store.setActiveRequest_resp (s : Store) (k : String) (b : Bool) :
    (s.setActiveRequest k b).responses = s.responses := rfl

@[simp] theorem Store.deleteConversation_conv (s : Store) (k kk : String) :
    (s.deleteConversation k).conversations kk = if kk = k then none else s.conversations kk := rfl

@[simp] theorem Store.deleteConversation_resp (s : Store) (k : String) :
    (s.deleteConversation k).responses = s.responses := rfl

@[simp] theorem Store.deleteConversation_active (s : Store) (k kk : String) :
    (s.deleteConversation k).activeRequests kk = if kk = k then false else s.activeRequests kk := rfl

@[simp] theorem Store.setResponse_resp (s : Store) (k : String) (r : FinalResponse) (kk : String) :
    (s.setResponse k r).responses kk = if kk = k then some r else s.responses kk := rfl

@[simp] theorem Store.setResponse_conv (s : Store) (k : String) (r : FinalResponse) :
    (s.setResponse k r).conversations = s.conversations := rfl

@[simp] theorem Store.setResponse_active (s : Store) (k : String) (r : FinalResponse) :
    (s.setResponse k r).activeRequests = s.activeRequests := rfl

@[simp] theorem Store.deleteResponse_resp (s : Store) (k kk : String) :
    (s.deleteResponse k).responses kk = if kk = k then none else s.responses kk := rfl

@[simp] theorem Store.deleteResponse_conv (s : Store) (k : String) :
    (s.deleteResponse k).conversations = s.conversations := rfl

@[simp] theorem Store.deleteResponse_active (s : Store) (k : String) :
    (s.deleteResponse k).activeRequests = s.activeRequests := rfl

@[simp] theorem Store.hasActiveRequest_eq (s : Store) (k : String) :
    s.hasActiveRequest k = s.activeRequests k := rfl

-- ============================================
-- C10
-- ============================================

/-- Claim C10: a poll that finds no ConversationRecord for its key clears
the active-request flag for that key before returning, so a subsequent
send for the same key is not rejected as a duplicate. -/
theorem poll_no_record_releases_lock (s : Store) (now : Nat) (k : String)
    (h : s.conversations k = none) :
    (handlePollRequest s now k).1.activeRequests k = false
    ∧ ∀ now' msg hint rid r,
        (handleSendRequest (handlePollRequest s now k).1 now' k msg hint rid).2
          ≠ SendOutcome.rejected r := by
  have hflag : (handlePollRequest s now k).1.activeRequests k = false := by
    unfold handlePollRequest
    rw [h]
    cases hr : s.responses k <;> simp [hr]
  refine ⟨hflag, ?_⟩
  intro now' msg hint rid r
  unfold handleSendRequest
  simp only [Store.hasActiveRequest_eq, hflag]
  simp only [Bool.false_eq_true, if_false]
  split
  · split <;> simp
  · simp

/-- Witness for C10 at a concrete store. -/
theorem poll_no_record_releases_lock_witness :
    (handlePollRequest Store.empty 5 key0).1.activeRequests key0 = false :=
  (poll_no_record_releases_lock Store.empty 5 key0 rfl).1

-- ============================================
-- C5
-- ============================================

/-- Claim C5 (amended): a send arriving while the active-request flag is
set for its key is rejected with ok=false and leaves the store untouched. -/
theorem send_rejected_when_active (s : Store) (now : Nat) (k msg : String)
    (hint : Bool) (rid : String) (h : s.activeRequests k = true) :
    handleSendRequest s now k msg hint rid = (s, .rejected sendRejectedResponse) := by
  unfold handleSendRequest
  simp [Store.hasActiveRequest_eq, h]

/-- Witness for C5 at a concrete store with the flag set. -/
theorem send_rejected_when_active_witness :
    handleSendRequest (Store.empty.setActiveRequest key0 true) 3 key0 "hi" false "r9"
      = (Store.empty.setActiveRequest key0 true, .rejected sendRejectedResponse) :=
  send_rejected_when_active (Store.empty.setActiveRequest key0 true) 3 key0 "hi" false "r9"
    (by decide)

/-- Counterexample for C5 as stated: after a deferred send that purged a
completed predecessor (store c5Store4), a non-completed ConversationRecord
exists for key0, yet a further send is not rejected and replaces the
in-flight record. -/
theorem send_overwrites_pending_after_purge :
    (c5Store4.conversations key0).map ConversationState.completed = some false
    ∧ c5Store4.activeRequests key0 = false
    ∧ (handleSendRequest c5Store4 40000 key0 "soft skills" true "r3").2
        = SendOutcome.pendingAck (sendPendingResponse "r3")
    ∧ (handleSendRequest c5Store4 40000 key0 "soft skills" true "r3").1.conversations key0
        ≠ c5Store4.conversations key0 := by
  refine ⟨by decide, by decide, by decide, by decide⟩

-- ============================================
-- C1 helpers
-- ============================================

/-- When pollProgress launches the background call, the stored record has
been updated with webhookCalled set to true. -/
theorem pollProgress_launch (s : Store) (now : Nat) (k : String)
    (conv : ConversationState) (h : (pollProgress s now k conv).2.2 = true) :
    (pollProgress s now k conv).1.conversations k
      = some { conv with webhookCalled := true, webhookStartTime := some now,
                         processingStarted := true } := by
  by_cases c1 : (!conv.webhookCalled && conv.isSoftSkillsFollowUp) = true <;>
    by_cases c2 : TIMING.POLLING_WAIT_TIME ≤ now - conv.startTime <;>
      by_cases c3 : (conv.webhookCalled && !conv.completed) = true <;>
        by_cases c4 : TIMING.EMPTY_MESSAGE_INTERVAL ≤ now - conv.lastEmptyMessageTime <;>
          simp_all [pollProgress]

/-- Once webhookCalled is true on the record, pollProgress neither
launches the background call again nor resets the flag. -/
theorem pollProgress_no_relaunch (s : Store) (now : Nat) (k : String)
    (conv : ConversationState) (hs : s.conversations k = some conv)
    (hw : conv.webhookCalled = true) :
    (pollProgress s now k conv).2.2 = false
    ∧ ∀ c', (pollProgress s now k conv).1.conversations k = some c'
        → c'.webhookCalled = true := by
  unfold pollProgress
  have hne : (!conv.webhookCalled && conv.isSoftSkillsFollowUp) = false := by
    simp [hw]
  rw [hne]
  simp only [Bool.false_eq_true, if_false]
  split_ifs with h3 h4 <;> refine ⟨rfl, fun c' hc' => ?_⟩ <;>
    simp only [Store.setConversation_conv, eq_self_iff_true, if_true,
      Option.some.injEq] at hc' <;>
    first
      | (subst hc'; simp [hw])
      | (rw [hs, Option.some.injEq] at hc'; subst hc'; exact hw)

/-- Claim C1: the deferred-call side effect of the Poll State Machine
fires exactly once per ConversationRecord.  Whenever a poll launches the
background call, the stored record has webhookCalled set to true; and
once webhookCalled is true, no later poll on the same record launches the
call again or resets the flag. -/
theorem poll_trigger_fires_exactly_once (s : Store) (now : Nat) (k : String)
    (conv : ConversationState) (h : s.conversations k = some conv) :
    ((handlePollRequest s now k).2.2 = true →
      ∃ c', (handlePollRequest s now k).1.conversations k = some c'
        ∧ c'.webhookCalled = true)
    ∧ (conv.webhookCalled = true →
      (handlePollRequest s now k).2.2 = false
      ∧ ∀ c', (handlePollRequest s now k).1.conversations k = some c'
          → c'.webhookCalled = true) := by
  unfold handlePollRequest
  rw [h]
  simp only []
  split_ifs with ht hcomp
  · exact ⟨fun hl => absurd hl (by simp), fun hw => ⟨by simp, fun c' hc' => by simp at hc'⟩⟩
  · cases hr : s.responses k with
    | some fr =>
      simp only [hr]
      exact ⟨fun hl => absurd hl (by simp), fun hw => ⟨by simp, fun c' hc' => by simp at hc'⟩⟩
    | none =>
      simp only [hr]
      exact ⟨fun hl => ⟨_, pollProgress_launch s now k conv hl, rfl⟩,
             fun hw => pollProgress_no_relaunch s now k conv h hw⟩
  · exact ⟨fun hl => ⟨_, pollProgress_launch s now k conv hl, rfl⟩,
           fun hw => pollProgress_no_relaunch s now k conv h hw⟩

/-- Witness for C1: at a record whose webhook call has already been
triggered, a further poll does not launch the background call again. -/
theorem poll_trigger_fires_exactly_once_witness :
    (handlePollRequest storeTriggered 20000 key0).2.2 = false :=
  ((poll_trigger_fires_exactly_once storeTriggered 20000 key0 convTriggered
    (by decide)).2 (by decide)).1

-- ============================================
-- C2
-- ============================================

/-- Claim C2 (amended): when a poll finds a record whose elapsed time has
reached MAX_TOTAL_TIME, regardless of every other field, the record and
any stored FinalResponse are deleted and the hard-timeout response is
returned: wire status completed with completed=true, success=true and the
fixed patience message; any subsequent poll for the key returns none. -/
theorem poll_hard_deadline_purges (s : Store) (now : Nat) (k : String)
    (conv : ConversationState) (h : s.conversations k = some conv)
    (hd : (now - conv.startTime) / 1000 ≥ TIMING.MAX_TOTAL_TIME / 1000) :
    (handlePollRequest s now k).1.conversations k = none
    ∧ (handlePollRequest s now k).1.responses k = none
    ∧ (handlePollRequest s now k).2.1
        = { status := "completed", message := hardTimeoutMessage,
            elapsedSeconds := some ((now - conv.startTime) / 1000),
            completed := some true, success := some true }
    ∧ (handlePollRequest s now k).2.2 = false
    ∧ ∀ now', (handlePollRequest (handlePollRequest s now k).1 now' k).2.1.status
        = "none" := by
  have hred : handlePollRequest s now k
      = (((s.deleteConversation k).deleteResponse k).setActiveRequest k false,
         { status := "completed", message := hardTimeoutMessage,
           elapsedSeconds := some ((now - conv.startTime) / 1000),
           completed := some true, success := some true },
         false) := by
    unfold handlePollRequest
    rw [h]
    simp only [if_pos hd]
  rw [hred]
  refine ⟨by simp, by simp, rfl, rfl, fun now' => ?_⟩
  unfold handlePollRequest
  simp

/-- Witness for C2 at a concrete stale record polled at the deadline. -/
theorem poll_hard_deadline_purges_witness :
    (handlePollRequest storeStale 300000 key0).1.conversations key0 = none
    ∧ (handlePollRequest storeStale 300000 key0).2.1
        = { status := "completed", message := hardTimeoutMessage,
            elapsedSeconds := some 300, completed := some true,
            success := some true } := by
  have h := poll_hard_deadline_purges storeStale 300000 key0 convStale
    (by decide) (by decide)
  exact ⟨h.1, h.2.2.1⟩

/-- Counterexample for C2 as stated: the hard-deadline poll does not
return a distinct timeout wire status; it reports status completed with
success=true, while the interface enumerates a separate timeout status
that this handler never produces. -/
theorem poll_hard_deadline_status_not_timeout :
    (300000 - convStale.startTime) / 1000 ≥ TIMING.MAX_TOTAL_TIME / 1000
    ∧ (handlePollRequest storeStale 300000 key0).2.1.status = "completed"
    ∧ (handlePollRequest storeStale 300000 key0).2.1.status ≠ "timeout"
    ∧ (handlePollRequest storeStale 300000 key0).2.1.success = some true := by
  refine ⟨by decide, by decide, by decide, by decide⟩

-- ============================================
-- C9
-- ============================================

/-- pollProgress always keeps a record for the key and only returns the
filler statuses processing, waiting or empty. -/
theorem pollProgress_keeps_record (s : Store) (now : Nat) (k : String)
    (conv : ConversationState) (hs : s.conversations k = some conv) :
    (∃ c', (pollProgress s now k conv).1.conversations k = some c')
    ∧ ((pollProgress s now k conv).2.1.status = "processing"
       ∨ (pollProgress s now k conv).2.1.status = "waiting"
       ∨ (pollProgress s now k conv).2.1.status = "empty") := by
  cases hw : conv.webhookCalled <;> cases hf : conv.isSoftSkillsFollowUp <;>
    cases hcp : conv.completed <;>
      by_cases c2 : TIMING.POLLING_WAIT_TIME ≤ now - conv.startTime <;>
        by_cases c4 : TIMING.EMPTY_MESSAGE_INTERVAL ≤ now - conv.lastEmptyMessageTime <;>
          simp [pollProgress, hw, hf, hcp, c2, c4, hs]

/-- Claim C9 (amended): a poll that finds a completed record before the
hard deadline consumes record and response and returns Completed when a
FinalResponse is present; when no FinalResponse is present the handler
does not delete the record and instead falls through to the filler
branches, returning a processing, waiting or empty status. -/
theorem poll_completed_consumes_or_falls_through (s : Store) (now : Nat)
    (k : String) (conv : ConversationState)
    (h : s.conversations k = some conv) (hc : conv.completed = true)
    (hd : (now - conv.startTime) / 1000 < TIMING.MAX_TOTAL_TIME / 1000) :
    (∀ fr, s.responses k = some fr →
      (handlePollRequest s now k).1.conversations k = none
      ∧ (handlePollRequest s now k).1.responses k = none
      ∧ (handlePollRequest s now k).2.1
          = { status := "completed", message := fr.message,
              elapsedSeconds := some ((now - conv.startTime) / 1000),
              completed := some true, success := some fr.success })
    ∧ (s.responses k = none →
      (∃ c', (handlePollRequest s now k).1.conversations k = some c')
      ∧ ((handlePollRequest s now k).2.1.status = "processing"
         ∨ (handlePollRequest s now k).2.1.status = "waiting"
         ∨ (handlePollRequest s now k).2.1.status = "empty")
      ∧ (handlePollRequest s now k).2.1.status ≠ "completed") := by
  have hnd : ¬((now - conv.startTime) / 1000 ≥ TIMING.MAX_TOTAL_TIME / 1000) := by
    omega
  constructor
  · intro fr hr
    have hred : handlePollRequest s now k
        = (((s.deleteConversation k).deleteResponse k).setActiveRequest k false,
           { status := "completed", message := fr.message,
             elapsedSeconds := some ((now - conv.startTime) / 1000),
             completed := some true, success := some fr.success },
           false) := by
      unfold handlePollRequest
      rw [h]
      simp [hnd, hc, hr]
    rw [hred]
    exact ⟨by simp, by simp, rfl⟩
  · intro hr
    have hred : handlePollRequest s now k = pollProgress s now k conv := by
      unfold handlePollRequest
      rw [h]
      simp [hnd, hc, hr]
    rw [hred]
    obtain ⟨hkeep, hstat⟩ := pollProgress_keeps_record s now k conv h
    refine ⟨hkeep, hstat, ?_⟩
    rcases hstat with hx | hx | hx <;> simp [hx]

/-- Witness for C9: the completed record with a stored response is
consumed. -/
theorem poll_completed_consumes_witness :
    (handlePollRequest storeCompletedWithResponse 20000 key0).1.conversations key0 = none
    ∧ (handlePollRequest storeCompletedWithResponse 20000 key0).2.1
        = { status := "completed", message := "done",
            elapsedSeconds := some 20, completed := some true,
            success := some true } := by
  have h := (poll_completed_consumes_or_falls_through storeCompletedWithResponse
    20000 key0 convCompleted (by decide) (by decide) (by decide)).1
    finalResponseSample (by decide)
  exact ⟨h.1, h.2.2⟩

/-- Counterexample for C9 as stated: a completed record with no stored
FinalResponse is not deleted and the poll answers with the filler status
empty instead of a generic Completed. -/
theorem poll_completed_without_response_falls_through :
    (handlePollRequest storeCompletedNoResponse 20000 key0).2.1.status = "empty"
    ∧ (handlePollRequest storeCompletedNoResponse 20000 key0).1.conversations key0 ≠ none := by
  refine ⟨by decide, by decide⟩

-- ============================================
-- C3
-- ============================================

/-- Claim C3 (amended): the deferred path requires both the externally
supplied hint and the server-side keyword detection of the message text.
When the hint is true, the message matches the soft-skills keyword
detection, the key holds no active request, and any existing record is
completed: the completed record and its FinalResponse are purged, a fresh
record with webhookCalled=false and completed=false is created, and the
pending acknowledgment is returned. -/
theorem send_deferred_creates_pending (s : Store) (now : Nat) (k msg rid : String)
    (hact : s.activeRequests k = false)
    (hdet : (detectMessageType msg).isSoftSkillsQuestion = true)
    (hpend : ∀ c, s.conversations k = some c → c.completed = true) :
    (handleSendRequest s now k msg true rid).2 = .pendingAck (sendPendingResponse rid)
    ∧ (handleSendRequest s now k msg true rid).1.conversations k
        = some { startTime := now, lastEmptyMessageTime := now, completed := false,
                 userMessage := msg, webhookCalled := false, emptyMessageCount := 0,
                 webhookStartTime := none, processingStarted := false,
                 isSoftSkillsFollowUp := true, requestId := rid }
    ∧ (s.conversations k ≠ none → (handleSendRequest s now k msg true rid).1.responses k = none)
    ∧ (s.conversations k = none →
        (handleSendRequest s now k msg true rid).1.responses k = s.responses k) := by
  unfold handleSendRequest
  simp only [Store.hasActiveRequest_eq, hact, Bool.false_eq_true, if_false,
    Bool.true_and, hdet, if_pos rfl]
  cases hc : s.conversations k with
  | some c =>
    have hcc : c.completed = true := hpend c hc
    simp [hc, hcc]
  | none =>
    simp [hc]

/-- Witness for C3 at an empty store and a detected soft-skills message. -/
theorem send_deferred_creates_pending_witness :
    (handleSendRequest Store.empty 0 key0 "soft skills" true "r1").2
      = .pendingAck (sendPendingResponse "r1") :=
  (send_deferred_creates_pending Store.empty 0 key0 "soft skills" "r1"
    (by decide) (by decide) (by intro c hc; cases hc)).1

/-- Counterexample for C3 as stated: with the hint set but a message that
the server-side keyword detection rejects, dispatch takes the immediate
path and creates no record, so the decision does not depend on the hint
alone. -/
theorem send_hint_alone_does_not_defer :
    (handleSendRequest Store.empty 0 key0 "hello" true "rid").2
      = SendOutcome.immediateCall "hello" 25000
    ∧ (handleSendRequest Store.empty 0 key0 "hello" true "rid").1.conversations key0
      = none := by
  refine ⟨by decide, by decide⟩

-- ============================================
-- C4
-- ============================================

/-- Claim C4 (amended): when the endpoint call fails or throws, the
Background Completion Handler stores a FinalResponse carrying a fallback
message, but with success=true; every branch of the handler stores
success=true, so the flag does not record whether the call succeeded. -/
theorem background_failure_stores_fallback (s : Store) (now : Nat) (k : String) :
    (∀ r : WebhookResult, r.ok = false →
      (processWebhookInBackground s now k (.result r)).responses k
        = some { message := webhookFailFallback, timestamp := now, success := true })
    ∧ (processWebhookInBackground s now k .exn).responses k
        = some { message := webhookExnFallback, timestamp := now, success := true } := by
  constructor
  · intro r hr
    unfold processWebhookInBackground processWebhookFinally
    simp only [hr, Bool.false_eq_true, if_false]
    cases hc : (s.setResponse k { message := webhookFailFallback, timestamp := now, success := true }).conversations k <;> simp [hc]
  · unfold processWebhookInBackground processWebhookFinally
    cases hc : (s.setResponse k { message := webhookExnFallback, timestamp := now, success := true }).conversations k <;> simp [hc]

/-- Witness for C4 at a failed webhook result. -/
theorem background_failure_stores_fallback_witness :
    (processWebhookInBackground Store.empty 7 key0 (.result webhookFailedResult)).responses key0
      = some { message := webhookFailFallback, timestamp := 7, success := true } :=
  (background_failure_stores_fallback Store.empty 7 key0).1 webhookFailedResult (by decide)

/-- Counterexample for C4 as stated: a failed call stores success=true,
not success=false. -/
theorem background_failure_stores_success_true :
    webhookFailedResult.ok = false
    ∧ ((processWebhookInBackground Store.empty 7 key0
          (.result webhookFailedResult)).responses key0).map FinalResponse.success
        = some true := by
  refine ⟨by decide, by decide⟩

-- ============================================
-- C6
-- ============================================

/-- Claim C6 (amended): on a parsed 2xx JSON body the route extracts the
first truthy field among output, message, response, body — not result,
and with no lookup nested under data — falling back to the raw response
text, and applies no length truncation; blank or generic success values
are replaced by a fixed thank-you message. -/
theorem extract_message_order_and_no_truncation (text : String)
    (fields : List (String × String)) :
    (∀ s, lookupField fields "output" = some s → trimString s ≠ "" →
      s ≠ "success" → s ≠ "Success" →
      extractWebhookMessage text (some fields) = s)
    ∧ (lookupField fields "output" = none → lookupField fields "message" = none →
       lookupField fields "response" = none → lookupField fields "body" = none →
       trimString text ≠ "" → text ≠ "success" → text ≠ "Success" →
       extractWebhookMessage text (some fields) = text) := by
  constructor
  · intro s hs htr h2 h3
    have hne : s ≠ "" := by
      intro e
      subst e
      exact htr rfl
    simp [extractWebhookMessage, firstTruthyStr, hs, hne, htr, h2, h3]
  · intro h1 h2 h3 h4 htr h5 h6
    have hne : text ≠ "" := by
      intro e
      subst e
      exact htr rfl
    simp [extractWebhookMessage, firstTruthyStr, h1, h2, h3, h4, hne, htr, h5, h6]

/-- Witness for C6 with a body carrying an output field. -/
theorem extract_message_order_witness :
    extractWebhookMessage "raw" (some [("output", "hi")]) = "hi" :=
  (extract_message_order_and_no_truncation "raw" [("output", "hi")]).1 "hi"
    (by decide) (by decide) (by decide) (by decide)

/-- The long text consists of 2004 copies of a non-space character. -/
theorem c6LongText_data : c6LongText.data = List.replicate 2004 'a' := rfl

theorem dropWhile_replicate_a (n : Nat) :
    List.dropWhile isJsSpace (List.replicate n 'a') = List.replicate n 'a' := by
  cases n with
  | zero => rfl
  | succ m =>
    simp [List.replicate_succ, List.dropWhile_cons,
      show isJsSpace 'a' = false from rfl]

theorem trimChars_replicate_a (n : Nat) :
    trimChars (List.replicate n 'a') = List.replicate n 'a' := by
  unfold trimChars
  rw [dropWhile_replicate_a, List.reverse_replicate, dropWhile_replicate_a,
    List.reverse_replicate]

theorem trimString_c6 : trimString c6LongText = c6LongText := by
  unfold trimString
  rw [c6LongText_data, trimChars_replicate_a]
  rfl

theorem c6LongText_length : c6LongText.length = 2004 := by
  show c6LongText.data.length = 2004
  rw [c6LongText_data, List.length_replicate]

theorem c6Long_ne (t : String) (h : t.length ≠ 2004) : c6LongText ≠ t := by
  intro e
  apply h
  rw [← e, c6LongText_length]

/-- Counterexample for C6 as stated: a body whose only field is result is
not selected (the raw text is returned instead), and an extraction of
2004 characters is returned untruncated, exceeding the claimed limit of
2000 characters plus an ellipsis marker. -/
theorem extract_message_ignores_result_and_never_truncates :
    extractWebhookMessage c6LongText (some [("result", "R")]) = c6LongText
    ∧ c6LongText.length = 2004 := by
  have hne : c6LongText ≠ "" := c6Long_ne "" (by decide)
  have h5 : c6LongText ≠ "success" := c6Long_ne "success" (by decide)
  have h6 : c6LongText ≠ "Success" := c6Long_ne "Success" (by decide)
  refine ⟨?_, c6LongText_length⟩
  simp [extractWebhookMessage, firstTruthyStr, lookupField, trimString_c6,
    hne, h5, h6]

-- ============================================
-- C8 helpers
-- ============================================

theorem beginsWith_append (p l : List Char) : beginsWith p (p ++ l) = true := by
  induction p with
  | nil => rfl
  | cons a t ih => simp [beginsWith, ih]

theorem keepChar_not_space (c : Char) (h : keepChar c = true) :
    isJsSpace c = false := by
  rcases Bool.or_eq_true_iff.mp h with h1 | h1
  · rw [show c = '+' from by simpa using h1]
    rfl
  · by_contra h2
    rw [Bool.not_eq_false] at h2
    rcases Bool.or_eq_true_iff.mp h2 with h3 | h3
    · rcases Bool.or_eq_true_iff.mp h3 with h4 | h4
      · rcases Bool.or_eq_true_iff.mp h4 with h5 | h5
        · rw [show c = ' ' from by simpa using h5] at h1
          exact absurd h1 (by decide)
        · rw [show c = '\t' from by simpa using h5] at h1
          exact absurd h1 (by decide)
      · rw [show c = '\n' from by simpa using h4] at h1
        exact absurd h1 (by decide)
    · rw [show c = '\r' from by simpa using h3] at h1
      exact absurd h1 (by decide)

theorem dropWhile_all_false (p : Char → Bool) (l : List Char)
    (h : ∀ c ∈ l, p c = false) : l.dropWhile p = l := by
  cases l with
  | nil => rfl
  | cons a t => simp [List.dropWhile_cons, h a (by simp)]

theorem trimChars_no_space (l : List Char) (h : ∀ c ∈ l, isJsSpace c = false) :
    trimChars l = l := by
  unfold trimChars
  rw [dropWhile_all_false _ _ h,
    dropWhile_all_false _ _ (fun c hc => h c (List.mem_reverse.mp hc)),
    List.reverse_reverse]

theorem waHeader_map_toLower : waHeader.map Char.toLower = waHeader := by decide

theorem waHeader_drop (l : List Char) : (waHeader ++ l).drop 9 = l := rfl

theorem waHeader_not_space (c : Char) (h : c ∈ waHeader) : isJsSpace c = false := by
  fin_cases h <;> rfl

/-- Fixpoint lemma: a string of the normalized shape is left unchanged by
normalizeWhatsAppChars. -/
theorem normalizeWhatsAppChars_fix (m : List Char)
    (hm : ∀ c ∈ m, keepChar c = true) :
    normalizeWhatsAppChars (waHeader ++ '+' :: m) = waHeader ++ '+' :: m := by
  have hall : ∀ c ∈ waHeader ++ '+' :: m, isJsSpace c = false := by
    intro c hc
    rcases List.mem_append.mp hc with hc | hc
    · exact waHeader_not_space c hc
    · rcases List.mem_cons.mp hc with rfl | hc
      · rfl
      · exact keepChar_not_space c (hm c hc)
  have hne : waHeader ++ '+' :: m ≠ [] := by simp [waHeader]
  have hfilter : ('+' :: m).filter keepChar = '+' :: m := by
    rw [List.filter_eq_self]
    intro c hc
    rcases List.mem_cons.mp hc with rfl | hc
    · rfl
    · exact hm c hc
  unfold normalizeWhatsAppChars
  rw [if_neg hne]
  dsimp only
  rw [trimChars_no_space _ hall, List.map_append, waHeader_map_toLower,
    beginsWith_append, if_pos rfl, waHeader_drop, hfilter,
    show beginsWith ['+'] ('+' :: m) = true from by simp [beginsWith],
    if_pos rfl]

/-- Shape lemma: on nonempty input, normalizeWhatsAppChars produces the
transport marker, a plus, and only kept characters. -/
theorem normalizeWhatsAppChars_shape (raw : List Char) (h : raw ≠ []) :
    ∃ m, normalizeWhatsAppChars raw = waHeader ++ '+' :: m
      ∧ ∀ c ∈ m, keepChar c = true := by
  unfold normalizeWhatsAppChars
  rw [if_neg h]
  dsimp only
  set t1 := trimChars raw with ht1
  set t2 := if beginsWith waHeader (t1.map Char.toLower) = true then t1.drop 9 else t1 with ht2
  set n := t2.filter keepChar with hn
  have hnall : ∀ c ∈ n, keepChar c = true := by
    intro c hc
    exact List.of_mem_filter hc
  by_cases hb : beginsWith ['+'] n = true
  · cases hnn : n with
    | nil => rw [hnn] at hb; exact absurd hb (by decide)
    | cons a t =>
      have ha : a = '+' := by
        rw [hnn] at hb
        exact (by simpa [beginsWith] using hb : '+' = a).symm
      subst ha
      refine ⟨t, ?_, fun c hc => hnall c (by rw [hnn]; exact List.mem_cons_of_mem _ hc)⟩
      simp [beginsWith]
  · rw [if_neg hb]
    exact ⟨n, rfl, hnall⟩

theorem normalizeWhatsAppChars_idem (l : List Char) :
    normalizeWhatsAppChars (normalizeWhatsAppChars l) = normalizeWhatsAppChars l := by
  by_cases hl : l = []
  · subst hl
    rfl
  · obtain ⟨m, hshape, hall⟩ := normalizeWhatsAppChars_shape l hl
    rw [hshape]
    exact normalizeWhatsAppChars_fix m hall

/-- Claim C8 (amended): normalizeWhatsApp is total and idempotent on all
strings; on every nonempty input the result is nonempty and starts with
the transport marker followed by a plus; the empty string maps to the
empty string. -/
theorem normalize_idempotent_total (s : String) :
    normalizeWhatsApp (normalizeWhatsApp s) = normalizeWhatsApp s
    ∧ (s ≠ "" →
        normalizeWhatsApp s ≠ ""
        ∧ beginsWith "whatsapp:+".data (normalizeWhatsApp s).data = true) := by
  constructor
  · exact congrArg String.mk (normalizeWhatsAppChars_idem s.data)
  · intro hs
    have hd : s.data ≠ [] := by
      intro e
      exact hs (String.ext_iff.mpr (by rw [e]))
    obtain ⟨m, hm, hall⟩ := normalizeWhatsAppChars_shape s.data hd
    constructor
    · show String.mk (normalizeWhatsAppChars s.data) ≠ ""
      rw [hm]
      intro e
      have hdata := String.ext_iff.mp e
      simp [waHeader] at hdata
    · show beginsWith "whatsapp:+".data (String.mk (normalizeWhatsAppChars s.data)).data = true
      rw [show (String.mk (normalizeWhatsAppChars s.data)).data
          = normalizeWhatsAppChars s.data from rfl, hm,
        show "whatsapp:+".data = waHeader ++ ['+'] from rfl,
        show waHeader ++ '+' :: m = (waHeader ++ ['+']) ++ m from by simp]
      exact beginsWith_append (waHeader ++ ['+']) m

/-- Witness for C8 on a nonempty input whose characters are all dropped. -/
theorem normalize_idempotent_total_witness :
    normalizeWhatsApp (normalizeWhatsApp "a") = normalizeWhatsApp "a"
    ∧ (normalizeWhatsApp "a" ≠ ""
       ∧ beginsWith "whatsapp:+".data (normalizeWhatsApp "a").data = true) :=
  ⟨(normalize_idempotent_total "a").1,
   (normalize_idempotent_total "a").2 (by decide)⟩

/-- Counterexample for C8 as stated: the empty input maps to the empty
string, not to a string starting with the transport marker. -/
theorem normalizeWhatsApp_empty : normalizeWhatsApp "" = "" := rfl

-- ============================================
-- C7 helpers
-- ============================================

/-- Attempt events produced by the inner loop stay on the loop's endpoint
and within the attempt window. -/
theorem tryAttempts_mem_bounds (net1 : Nat → AttemptOutcome) (e : Nat) :
    ∀ (remaining start e' a : Nat),
      CallEvent.attempt e' a ∈ (tryAttempts net1 e start remaining).2 →
      e' = e ∧ start ≤ a ∧ a < start + remaining := by
  intro remaining
  induction remaining with
  | zero =>
    intro start e' a h
    simp [tryAttempts] at h
  | succ r ih =>
    intro start e' a h
    cases ho : net1 start with
    | success m =>
      simp [tryAttempts, ho] at h
      exact ⟨h.1, by omega⟩
    | timeoutErr =>
      simp [tryAttempts, ho] at h
      exact ⟨h.1, by omega⟩
    | httpError st =>
      cases r with
      | zero =>
        simp [tryAttempts, ho] at h
        exact ⟨h.1, by omega⟩
      | succ r2 =>
        simp only [tryAttempts, ho] at h
        simp at h
        rcases h with ⟨he, ha⟩ | h2
        · exact ⟨he, by omega⟩
        · obtain ⟨he, h3, h4⟩ := ih (start + 1) e' a h2
          exact ⟨he, by omega, by omega⟩
    | otherErr d =>
      cases r with
      | zero =>
        simp [tryAttempts, ho] at h
        exact ⟨h.1, by omega⟩
      | succ r2 =>
        simp only [tryAttempts, ho] at h
        simp at h
        rcases h with ⟨he, ha⟩ | h2
        · exact ⟨he, by omega⟩
        · obtain ⟨he, h3, h4⟩ := ih (start + 1) e' a h2
          exact ⟨he, by omega, by omega⟩

/-- The inner loop always performs its first attempt. -/
theorem tryAttempts_first_mem (net1 : Nat → AttemptOutcome) (e start r : Nat)
    (h : 0 < r) :
    CallEvent.attempt e start ∈ (tryAttempts net1 e start r).2 := by
  cases r with
  | zero => omega
  | succ r2 =>
    cases ho : net1 start with
    | success m => simp [tryAttempts, ho]
    | timeoutErr => simp [tryAttempts, ho]
    | httpError st => cases r2 <;> simp [tryAttempts, ho]
    | otherErr d => cases r2 <;> simp [tryAttempts, ho]

/-- A timeout on the first attempt of an endpoint stops the inner loop at
once: no backoff and no further attempt on that endpoint. -/
theorem tryAttempts_timeout (net1 : Nat → AttemptOutcome) (e start r : Nat)
    (h0 : 0 < r) (h : net1 start = .timeoutErr) :
    tryAttempts net1 e start r = (none, [.attempt e start]) := by
  cases r with
  | zero => omega
  | succ r2 => simp [tryAttempts, h]

/-- When the inner loop returns no message, none of the attempts it
performed got a success from the network. -/
theorem tryAttempts_none_no_success (net1 : Nat → AttemptOutcome) (e : Nat) :
    ∀ (r start e' a : Nat), (tryAttempts net1 e start r).1 = none →
      CallEvent.attempt e' a ∈ (tryAttempts net1 e start r).2 →
      ∀ m, net1 a ≠ .success m := by
  intro r
  induction r with
  | zero =>
    intro start e' a h1 h2
    simp [tryAttempts] at h2
  | succ r2 ih =>
    intro start e' a h1 h2
    cases ho : net1 start with
    | success m0 => simp [tryAttempts, ho] at h1
    | timeoutErr =>
      simp [tryAttempts, ho] at h2
      intro m hcon
      rw [h2.2, ho] at hcon
      cases hcon
    | httpError st =>
      cases r2 with
      | zero =>
        simp [tryAttempts, ho] at h2
        intro m hcon
        rw [h2.2, ho] at hcon
        cases hcon
      | succ r3 =>
        simp only [tryAttempts, ho] at h1 h2
        simp at h1 h2
        rcases h2 with ⟨he, ha⟩ | h3
        · intro m hcon
          rw [ha, ho] at hcon
          cases hcon
        · exact ih (start + 1) e' a h1 h3
    | otherErr d =>
      cases r2 with
      | zero =>
        simp [tryAttempts, ho] at h2
        intro m hcon
        rw [h2.2, ho] at hcon
        cases hcon
      | succ r3 =>
        simp only [tryAttempts, ho] at h1 h2
        simp at h1 h2
        rcases h2 with ⟨he, ha⟩ | h3
        · intro m hcon
          rw [ha, ho] at hcon
          cases hcon
        · exact ih (start + 1) e' a h1 h3

/-- Attempt events of the outer loop stay on listed endpoints with
attempt numbers between 1 and 2. -/
theorem goEndpoints_mem (net : Nat → Nat → AttemptOutcome) :
    ∀ (l : List Nat) (e' a : Nat),
      CallEvent.attempt e' a ∈ (goEndpoints net l).2 →
      e' ∈ l ∧ 1 ≤ a ∧ a ≤ maxAttemptsPerEndpoint := by
  intro l
  induction l with
  | nil =>
    intro e' a h
    simp [goEndpoints] at h
  | cons e rest ih =>
    intro e' a h
    cases ht : (tryAttempts (net e) e 1 maxAttemptsPerEndpoint).1 with
    | some m =>
      have hred : (goEndpoints net (e :: rest)).2
          = (tryAttempts (net e) e 1 maxAttemptsPerEndpoint).2 := by
        simp [goEndpoints, ht]
      rw [hred] at h
      obtain ⟨he, h1, h2⟩ := tryAttempts_mem_bounds (net e) e maxAttemptsPerEndpoint 1 e' a h
      exact ⟨by simp [he], h1, by omega⟩
    | none =>
      have hred : (goEndpoints net (e :: rest)).2
          = (tryAttempts (net e) e 1 maxAttemptsPerEndpoint).2
            ++ (goEndpoints net rest).2 := by
        simp [goEndpoints, ht]
      rw [hred] at h
      rcases List.mem_append.mp h with h | h
      · obtain ⟨he, h1, h2⟩ := tryAttempts_mem_bounds (net e) e maxAttemptsPerEndpoint 1 e' a h
        exact ⟨by simp [he], h1, by omega⟩
      · obtain ⟨he, h1, h2⟩ := ih e' a h
        exact ⟨by simp [he], h1, h2⟩

/-- When the outer loop fails, the generic failure message is returned,
no performed attempt was a success, and every listed endpoint was tried
at least once. -/
theorem goEndpoints_fail (net : Nat → Nat → AttemptOutcome) :
    ∀ (l : List Nat), (goEndpoints net l).1.ok = false →
      (goEndpoints net l).1.message = p3FailMessage
      ∧ (∀ e' a m, CallEvent.attempt e' a ∈ (goEndpoints net l).2
          → net e' a ≠ .success m)
      ∧ (∀ e ∈ l, CallEvent.attempt e 1 ∈ (goEndpoints net l).2) := by
  intro l
  induction l with
  | nil =>
    intro h
    exact ⟨rfl, by simp [goEndpoints], by simp⟩
  | cons e rest ih =>
    intro h
    cases ht : (tryAttempts (net e) e 1 maxAttemptsPerEndpoint).1 with
    | some m =>
      exfalso
      simp [goEndpoints, ht] at h
    | none =>
      have hred : goEndpoints net (e :: rest)
          = ((goEndpoints net rest).1,
             (tryAttempts (net e) e 1 maxAttemptsPerEndpoint).2
               ++ (goEndpoints net rest).2) := by
        simp [goEndpoints, ht]
      rw [hred] at h ⊢
      obtain ⟨hm, hns, hfirst⟩ := ih h
      refine ⟨hm, ?_, ?_⟩
      · intro e' a m hmem
        rcases List.mem_append.mp hmem with hmem | hmem
        · obtain ⟨he, _, _⟩ := tryAttempts_mem_bounds (net e) e maxAttemptsPerEndpoint 1 e' a hmem
          subst he
          exact tryAttempts_none_no_success (net e') e' maxAttemptsPerEndpoint 1 e' a ht hmem m
        · exact hns e' a m hmem
      · intro e2 he2
        rcases List.mem_cons.mp he2 with rfl | he2
        · exact List.mem_append.mpr
            (Or.inl (tryAttempts_first_mem (net e2) e2 1 maxAttemptsPerEndpoint (by decide)))
        · exact List.mem_append.mpr (Or.inr (hfirst e2 he2))

/-- A timeout on the first attempt of an endpoint means no second attempt
on that endpoint ever appears in the run. -/
theorem goEndpoints_no_second_after_timeout (net : Nat → Nat → AttemptOutcome) :
    ∀ (l : List Nat) (e : Nat), net e 1 = .timeoutErr →
      CallEvent.attempt e 2 ∉ (goEndpoints net l).2 := by
  intro l
  induction l with
  | nil =>
    intro e h
    simp [goEndpoints]
  | cons e0 rest ih =>
    intro e h hmem
    cases ht : (tryAttempts (net e0) e0 1 maxAttemptsPerEndpoint).1 with
    | some m =>
      have hred : (goEndpoints net (e0 :: rest)).2
          = (tryAttempts (net e0) e0 1 maxAttemptsPerEndpoint).2 := by
        simp [goEndpoints, ht]
      rw [hred] at hmem
      obtain ⟨he, _, _⟩ := tryAttempts_mem_bounds (net e0) e0 maxAttemptsPerEndpoint 1 e 2 hmem
      subst he
      rw [tryAttempts_timeout (net e) e 1 maxAttemptsPerEndpoint (by decide) h] at ht
      cases ht
    | none =>
      have hred : (goEndpoints net (e0 :: rest)).2
          = (tryAttempts (net e0) e0 1 maxAttemptsPerEndpoint).2
            ++ (goEndpoints net rest).2 := by
        simp [goEndpoints, ht]
      rw [hred] at hmem
      rcases List.mem_append.mp hmem with hmem | hmem
      · obtain ⟨he, _, _⟩ := tryAttempts_mem_bounds (net e0) e0 maxAttemptsPerEndpoint 1 e 2 hmem
        subst he
        rw [tryAttempts_timeout (net e) e 1 maxAttemptsPerEndpoint (by decide) h] at hmem
        simp at hmem
      · exact ih e h hmem

/-- A non-timeout failure of the first attempt produces exactly the
attempt, backoff, attempt event sequence on that endpoint. -/
theorem tryAttempts_backoff_http (net1 : Nat → AttemptOutcome) (e st : Nat)
    (h : net1 1 = .httpError st) :
    (tryAttempts net1 e 1 maxAttemptsPerEndpoint).2
      = [.attempt e 1, .backoff 2000, .attempt e 2] := by
  cases h2 : net1 2 <;> simp [tryAttempts, maxAttemptsPerEndpoint, h, h2]

theorem tryAttempts_backoff_other (net1 : Nat → AttemptOutcome) (e : Nat)
    (d : String) (h : net1 1 = .otherErr d) :
    (tryAttempts net1 e 1 maxAttemptsPerEndpoint).2
      = [.attempt e 1, .backoff 2000, .attempt e 2] := by
  cases h2 : net1 2 <;> simp [tryAttempts, maxAttemptsPerEndpoint, h, h2]

/-- Claim C7: the part_003 sendToWebhook retry policy.  Every attempt in
a run stays on one of the two listed endpoints with at most
maxAttemptsPerEndpoint attempts; a timeout on the first attempt of an
endpoint suppresses the second attempt on that endpoint; other transport
errors are retried once after the fixed 2000 ms backoff; and the generic
failure result appears only after every endpoint was tried and no
performed attempt succeeded. -/
theorem webhook_retry_policy (net : Nat → Nat → AttemptOutcome) :
    (∀ e a, CallEvent.attempt e a ∈ (sendToWebhookP3 net).2
      → e < 2 ∧ 1 ≤ a ∧ a ≤ maxAttemptsPerEndpoint)
    ∧ (∀ e, net e 1 = .timeoutErr
        → CallEvent.attempt e 2 ∉ (sendToWebhookP3 net).2)
    ∧ ((sendToWebhookP3 net).1.ok = false →
        (sendToWebhookP3 net).1.message = p3FailMessage
        ∧ (∀ e a m, CallEvent.attempt e a ∈ (sendToWebhookP3 net).2
            → net e a ≠ .success m)
        ∧ (∀ e, e < 2 → CallEvent.attempt e 1 ∈ (sendToWebhookP3 net).2))
    ∧ (∀ e st, net e 1 = .httpError st →
        (tryAttempts (net e) e 1 maxAttemptsPerEndpoint).2
          = [.attempt e 1, .backoff 2000, .attempt e 2])
    ∧ (∀ e d, net e 1 = .otherErr d →
        (tryAttempts (net e) e 1 maxAttemptsPerEndpoint).2
          = [.attempt e 1, .backoff 2000, .attempt e 2]) := by
  refine ⟨?_, ?_, ?_, ?_, ?_⟩
  · intro e a h
    obtain ⟨he, h1, h2⟩ := goEndpoints_mem net p3Endpoints e a h
    refine ⟨?_, h1, h2⟩
    simp [p3Endpoints] at he
    omega
  · intro e h
    exact goEndpoints_no_second_after_timeout net p3Endpoints e h
  · intro h
    obtain ⟨hm, hns, hfirst⟩ := goEndpoints_fail net p3Endpoints h
    refine ⟨hm, hns, ?_⟩
    intro e he
    apply hfirst
    interval_cases e <;> simp [p3Endpoints]
  · intro e st h
    exact tryAttempts_backoff_http (net e) e st h
  · intro e d h
    exact tryAttempts_backoff_other (net e) e d h

/-- Witness for C7 on the network where every attempt times out. -/
theorem webhook_retry_policy_witness :
    CallEvent.attempt 0 2 ∉ (sendToWebhookP3 (fun _ _ => AttemptOutcome.timeoutErr)).2 :=
  (webhook_retry_policy (fun _ _ => AttemptOutcome.timeoutErr)).2.1 0 rfl
